import Mathlib

/-!
Shallow embedding of the evaluation pipeline of `src/evaluation/src/evaluator.py`
(criteria extraction, claim extraction, heuristic fact-checking, scoring,
conditional auto-fix, and the JSON-report fields derived from them).

Strings are modelled as `List Char`; Python floats are modelled as exact
rationals (`Rat`); a Python exception escaping a function is modelled as
`Option.none`.  Language-model calls are external: each AI path takes the
parsed response (or `none` for any failure, which triggers the fallback) as an
explicit argument, exactly mirroring the try/except structure of the source.
-/

namespace ReportEval

/-- Convert a Lean string literal to the `List Char` string model. -/
def chars (s : String) : List Char := s.toList

/-- Python `str.lower()` (modelled per-character). -/
def toLowerL (s : List Char) : List Char := s.map Char.toLower

/-- Test whether `hay` starts with `needle` (helper for the Python `in` test). -/
def leadMatch : List Char → List Char → Bool
  | [], _ => true
  | _ :: _, [] => false
  | a :: as, b :: bs => a == b && leadMatch as bs

/-- Python substring test `needle in hay`. -/
def containsSub (needle : List Char) : List Char → Bool
  | [] => needle.isEmpty
  | b :: bs => leadMatch needle (b :: bs) || containsSub needle bs

/-- Helper for Python `str.split()` with no separator: accumulate the current
word (reversed in `cur`) and split on whitespace runs, dropping empties. -/
def splitWsAux : List Char → List Char → List (List Char)
  | [], cur => if cur.isEmpty then [] else [cur.reverse]
  | c :: rest, cur =>
    if c.isWhitespace then
      if cur.isEmpty then splitWsAux rest [] else cur.reverse :: splitWsAux rest []
    else splitWsAux rest (c :: cur)

/-- Python `str.split()` (no argument): whitespace-separated words, no empties. -/
def splitWs (s : List Char) : List (List Char) := splitWsAux s []

/-- Helper for Python `str.split('.')`. -/
def splitOnDotAux : List Char → List Char → List (List Char)
  | [], cur => [cur.reverse]
  | c :: rest, cur =>
    if c == '.' then cur.reverse :: splitOnDotAux rest []
    else splitOnDotAux rest (c :: cur)

/-- Python `str.split('.')`: keeps empty segments. -/
def splitOnDot (s : List Char) : List (List Char) := splitOnDotAux s []

/-- Python `str.strip()`: drop leading and trailing whitespace. -/
def stripL (s : List Char) : List Char :=
  ((s.dropWhile Char.isWhitespace).reverse.dropWhile Char.isWhitespace).reverse

/-- Decimal digit character (helper for Python f-string number formatting). -/
def digitChar (n : Nat) : Char := Char.ofNat (48 + n)

/-- Fuel-driven decimal rendering of a natural number. -/
def natCharsAux : Nat → Nat → List Char
  | 0, _ => []
  | fuel + 1, n =>
    if n < 10 then [digitChar n]
    else natCharsAux fuel (n / 10) ++ [digitChar (n % 10)]

/-- Decimal rendering of a natural number (Python `f"{n}"`). -/
def natChars (n : Nat) : List Char := natCharsAux (n + 1) n

/-! ## Data model (the dataclasses of `evaluator.py`) -/

/-- Dataclass `Criteria`: evaluation criteria extracted from the user query. -/
structure Criteria where
  goals : List (List Char)
  constraints : List (List Char)
  must_include : List (List Char)
  nice_to_have : List (List Char)
  disallowed : List (List Char)
  deriving DecidableEq

/-- Dataclass `Claim`: an individual verifiable claim. -/
structure Claim where
  claim_text : List Char
  evidence_needed : List Char
  priority : List Char
  deriving DecidableEq

/-- A search result dict `{'title':…, 'url':…, 'snippet':…}`. -/
structure SearchResult where
  title : List Char
  url : List Char
  snippet : List Char
  deriving DecidableEq

/-- Dataclass `FactCheckResult`: the result of fact-checking one claim. -/
structure FactCheckResult where
  claim : List Char
  verdict : List Char
  confidence : Rat
  rationale : List Char
  sources : List SearchResult
  deriving DecidableEq

/-- Dataclass `EvaluationScore`: four component scores plus the overall. -/
structure EvaluationScore where
  accuracy : Rat
  coverage : Rat
  citations_quality : Rat
  clarity_structure : Rat
  overall : Rat
  deriving DecidableEq

/-- Method `EvaluationScore.calculate_overall`: recompute `overall` as the fixed
weighted combination of the four components (the Python method mutates the
field; here it returns the updated record). -/
def calculate_overall (s : EvaluationScore) : EvaluationScore :=
  { s with overall :=
      45/100 * s.accuracy + 30/100 * s.coverage +
      15/100 * s.citations_quality + 10/100 * s.clarity_structure }

/-! ## Scorer (`ReportEvaluator.score_report`) -/

/-- Method `ReportEvaluator.score_report`: accuracy from fact-check verdicts, coverage
from `must_include` substring hits, citations quality from distinct source
URLs, clarity from draft length and heading count, then the weighted overall. -/
def score_report (draft : List Char) (criteria : Criteria)
    (fact_checks : List FactCheckResult) : EvaluationScore :=
  let supported := (fact_checks.filter (fun fc => fc.verdict = chars "supported")).length
  let total_claims := if fact_checks.isEmpty then 1 else fact_checks.length
  let accuracy : Rat := ((supported : Rat) / (total_claims : Rat)) * 5
  let coverage_items := if criteria.must_include.isEmpty then 1 else criteria.must_include.length
  let covered := (criteria.must_include.filter
      (fun item => containsSub (toLowerL item) (toLowerL draft))).length
  let coverage : Rat := ((covered : Rat) / (coverage_items : Rat)) * 5
  let unique_sources := ((fact_checks.flatMap (fun fc => fc.sources.map (·.url))).dedup).length
  let citations_quality : Rat := min ((unique_sources : Rat) / 2) 5
  let clarity_score : Rat :=
    (3 + (if 500 < draft.length ∧ draft.length < 5000 then 1 else 0))
      + (if 3 < draft.count '#' then 1 else 0)
  calculate_overall
    { accuracy := accuracy
      coverage := coverage
      citations_quality := citations_quality
      clarity_structure := min clarity_score 5
      overall := 0 }

/-! ## CriteriaExtractor (`extract_criteria` / `_extract_criteria_basic`) -/

/-- Python regex class `\w` (ASCII view, the queries are lowercased ASCII). -/
def isWordChar (c : Char) : Bool := c.isAlpha || c.isDigit || c == '_'

/-- Drop an exact leading pattern, returning the remainder on success. -/
def dropExact : List Char → List Char → Option (List Char)
  | [], rest => some rest
  | _ :: _, [] => none
  | k :: ks, c :: cs => if k == c then dropExact ks cs else none

/-- Match one of the four keyword alternatives of the `must_include` regex
`(?:include|cover|explain|describe)` (the alternatives start with distinct
letters, so at most one can match at a given position). -/
def matchKw (cs : List Char) : Option (List Char) :=
  (dropExact (chars "include") cs).orElse (fun _ =>
    (dropExact (chars "cover") cs).orElse (fun _ =>
      (dropExact (chars "explain") cs).orElse (fun _ =>
        dropExact (chars "describe") cs)))

/-- Attempt the regex `(?:include|cover|explain|describe)\s+(\w+)` at the head
of the input; returns the captured `\w+` group and the rest after the match. -/
def tryMatchAt (cs : List Char) : Option (List Char × List Char) :=
  match matchKw cs with
  | none => none
  | some rest =>
    if (rest.takeWhile Char.isWhitespace).isEmpty then none
    else
      let rest2 := rest.dropWhile Char.isWhitespace
      let w := rest2.takeWhile isWordChar
      if w.isEmpty then none else some (w, rest2.dropWhile isWordChar)

/-- Fuel-driven scan for all non-overlapping matches of the `must_include`
regex; `atBoundary` records whether a `\b` word boundary precedes the current
position (the previous character, if any, is not a word character). -/
def scanMust : Nat → Bool → List Char → List (List Char)
  | 0, _, _ => []
  | _ + 1, _, [] => []
  | fuel + 1, atBoundary, c :: rest =>
    if atBoundary then
      match tryMatchAt (c :: rest) with
      | some (w, rest2) => w :: scanMust fuel false rest2
      | none => scanMust fuel (!(isWordChar c)) rest
    else scanMust fuel (!(isWordChar c)) rest

/-- Python `re.findall(r'\b(?:include|cover|explain|describe)\s+(\w+)', s)`. -/
def findMustInclude (s : List Char) : List (List Char) := scanMust (s.length + 1) true s

/-- Method `ReportEvaluator._extract_criteria_basic`: keyword-triggered goals,
regex-extracted `must_include`, fixed default lists for the other fields. -/
def extract_criteria_basic (user_query : List Char) : Criteria :=
  let query_lower := toLowerL user_query
  let goals :=
    (if containsSub (chars "compare") query_lower
      then [chars "Provide comprehensive comparison"] else []) ++
    (if containsSub (chars "best") query_lower
      then [chars "Identify best options with justification"] else []) ++
    (if containsSub (chars "how") query_lower
      then [chars "Provide actionable instructions"] else [])
  { goals := if goals.isEmpty then [chars "Answer the user's question comprehensively"] else goals
    constraints := [chars "Be factual and accurate", chars "Use credible sources"]
    must_include := findMustInclude query_lower
    nice_to_have := [chars "Recent information (2023-2024)", chars "Multiple perspectives"]
    disallowed := [chars "Speculation without evidence", chars "Outdated information"] }

/-- Method `ReportEvaluator.extract_criteria`: with no API key the fallback is
taken directly; with a key, a parsed AI response is used as-is and any failure
(`none`) falls back to the basic extractor. -/
def extract_criteria (api_key : Option (List Char)) (ai_resp : Option Criteria)
    (user_query : List Char) : Criteria :=
  match api_key with
  | none => extract_criteria_basic user_query
  | some _ =>
    match ai_resp with
    | some c => c
    | none => extract_criteria_basic user_query

/-! ## ClaimExtractor (`extract_claims` / `_extract_claims_basic`) -/

/-- Method `ReportEvaluator._extract_claims_basic`: split the draft on `'.'`,
keep the first 20 sentences, strip them, keep those longer than 20 characters,
wrap each as a medium-priority claim, and cap the result at 10. -/
def extract_claims_basic (draft : List Char) : List Claim :=
  (((((splitOnDot draft).take 20).map stripL).filter
      (fun s => 20 < s.length)).map
    (fun s => { claim_text := s
                evidence_needed := chars "Web search verification"
                priority := chars "medium" })).take 10

/-- Method `ReportEvaluator.extract_claims`: with no API key the fallback is
taken; with a key, the parsed JSON array of claims is returned unchanged (the
AI path applies no cap), and any failure (`none`) falls back. -/
def extract_claims (api_key : Option (List Char)) (ai_resp : Option (List Claim))
    (draft : List Char) : List Claim :=
  match api_key with
  | none => extract_claims_basic draft
  | some _ =>
    match ai_resp with
    | some cs => cs
    | none => extract_claims_basic draft

/-! ## FactChecker (`fact_check_claim` / `_fact_check_basic`) -/

/-- Per-source test of `_fact_check_basic`: 1 when the snippet's word-set
overlap ratio with the claim word set exceeds 0.3, else 0. -/
def overlapBit (claim_words : List (List Char)) (source : SearchResult) : Nat :=
  if (3 : Rat)/10 <
      ((claim_words.filter
          (fun w => w ∈ (splitWs (toLowerL source.snippet)).dedup)).length : Rat)
        / (claim_words.length : Rat)
    then 1 else 0

/-- Count the sources whose snippet word set overlaps the claim word set in a
ratio above 0.3 (loop of `_fact_check_basic`).  Dividing by an empty claim
word set raises `ZeroDivisionError` in Python, modelled as `none`; this occurs
exactly when the word set is empty and at least one source is present. -/
def overlapMatches : List (List Char) → List SearchResult → Option Nat
  | _, [] => some 0
  | claim_words, source :: rest =>
    if claim_words.length = 0 then none
    else (overlapMatches claim_words rest).map (fun m => overlapBit claim_words source + m)

/-- Method `ReportEvaluator._fact_check_basic`: keyword-overlap verdict policy
(two or more matching sources → supported at 0.7; exactly one → insufficient at
0.5; none → insufficient at 0.3). -/
def fact_check_basic (claim : Claim) (sources : List SearchResult) :
    Option FactCheckResult :=
  (overlapMatches ((splitWs (toLowerL claim.claim_text)).dedup) sources).map
    (fun match_count =>
    if 2 ≤ match_count then
      { claim := claim.claim_text
        verdict := chars "supported"
        confidence := 7/10
        rationale := chars "Found " ++ natChars match_count
          ++ chars " sources with matching content"
        sources := sources }
    else if match_count = 1 then
      { claim := claim.claim_text
        verdict := chars "insufficient"
        confidence := 5/10
        rationale := chars "Limited evidence found"
        sources := sources }
    else
      { claim := claim.claim_text
        verdict := chars "insufficient"
        confidence := 3/10
        rationale := chars "No clear supporting evidence found"
        sources := sources })

/-- Number of matching sources seen by `_fact_check_basic` (0 when the loop
would raise). -/
def matchCountD (claim : Claim) (sources : List SearchResult) : Nat :=
  (overlapMatches ((splitWs (toLowerL claim.claim_text)).dedup) sources).getD 0

/-- Fields of the JSON object parsed from the fact-checking model response
(`result` in `fact_check_claim`); a missing key is `none`. -/
structure ParsedVerdict where
  verdict : Option (List Char)
  confidence : Option Rat
  rationale : Option (List Char)
  deriving DecidableEq

/-- AI branch of `ReportEvaluator.fact_check_claim` after a successful JSON
parse: `result.get` defaults are applied and the parsed confidence is used
without any clamping. -/
def fact_check_ai (claim_text : List Char) (resp : ParsedVerdict)
    (search_results : List SearchResult) : FactCheckResult :=
  { claim := claim_text
    verdict := resp.verdict.getD (chars "insufficient")
    confidence := resp.confidence.getD (5/10)
    rationale := resp.rationale.getD (chars "Unable to determine")
    sources := search_results }

/-- Method `ReportEvaluator.fact_check_claim`: with no API key the heuristic
fallback runs on the retrieved search results; with a key, a parsed response is
mapped through `fact_check_ai`, and any failure (`none`) falls back. -/
def fact_check_claim (api_key : Option (List Char)) (ai_resp : Option ParsedVerdict)
    (claim : Claim) (search_results : List SearchResult) : Option FactCheckResult :=
  match api_key with
  | none => fact_check_basic claim search_results
  | some _ =>
    match ai_resp with
    | some resp => some (fact_check_ai claim.claim_text resp search_results)
    | none => fact_check_basic claim search_results

/-! ## Orchestrator (`generate_report` step 5 and `_save_json_report`) -/

/-- Conditional revision of `generate_report`: `fixed_draft = draft`, replaced
by the auto-fix result only when the overall score is strictly below 3.5. -/
def pipeline_fixed_draft (draft : List Char) (overall : Rat)
    (auto_fix : List Char → List Char) : List Char :=
  if overall < 7/2 then auto_fix draft else draft

/-- Draft-related fields of the JSON report written by `_save_json_report`. -/
structure JsonReportBits where
  original_draft_length : Nat
  fixed_draft_length : Option Nat
  auto_fixed : Bool
  deriving DecidableEq

/-- Fields of `_save_json_report`: `fixed_draft_length` is `null` when the
fixed draft is identical to the original, and `auto_fixed` restates the
revision condition `overall < 3.5`. -/
def json_report_bits (original fixed : List Char) (overall : Rat) : JsonReportBits :=
  { original_draft_length := original.length
    fixed_draft_length := if fixed = original then none else some fixed.length
    auto_fixed := decide (overall < 7/2) }

end ReportEval

namespace ReportEval

/-- The Python denominator idiom `len(l) if l else 1` equals `max 1 (len l)`. -/
theorem ite_isEmpty_eq_max {α : Type} (l : List α) :
    (if l.isEmpty then 1 else l.length) = max 1 l.length := by
  cases l with
  | nil => rfl
  | cons a t => simp [List.isEmpty]

/-- A ratio score `(a / max 1 b) * 5` with `a ≤ b` lies in `[0, 5]`. -/
theorem ratio_score_bounds (a b : Nat) (hab : a ≤ b) :
    0 ≤ ((a : Rat) / ((max 1 b : Nat) : Rat)) * 5 ∧
      ((a : Rat) / ((max 1 b : Nat) : Rat)) * 5 ≤ 5 := by
  have hb : (0 : Rat) < ((max 1 b : Nat) : Rat) := by
    exact_mod_cast Nat.lt_of_lt_of_le Nat.zero_lt_one (Nat.le_max_left 1 b)
  have hle : ((a : Rat)) ≤ ((max 1 b : Nat) : Rat) := by
    exact_mod_cast Nat.le_trans hab (Nat.le_max_right 1 b)
  constructor
  · positivity
  · have h1 : (a : Rat) / ((max 1 b : Nat) : Rat) ≤ 1 := (div_le_one hb).mpr hle
    calc ((a : Rat) / ((max 1 b : Nat) : Rat)) * 5 ≤ 1 * 5 := by
          exact mul_le_mul_of_nonneg_right h1 (by norm_num)
      _ = 5 := one_mul 5

/-- C1: the overall score returned by `score_report` is exactly the fixed
weighted combination of its four component scores. -/
theorem c1_overall_is_weighted_sum (draft : List Char) (criteria : Criteria)
    (fact_checks : List FactCheckResult) :
    (score_report draft criteria fact_checks).overall =
      45/100 * (score_report draft criteria fact_checks).accuracy +
      30/100 * (score_report draft criteria fact_checks).coverage +
      15/100 * (score_report draft criteria fact_checks).citations_quality +
      10/100 * (score_report draft criteria fact_checks).clarity_structure := by
  rfl

/-- C2: `score_report` computes accuracy as the supported-verdict ratio times 5
and coverage as the case-insensitive `must_include` hit ratio times 5, in both
cases with denominator `max 1 n` (so no division by zero for empty inputs),
and both scores lie in `[0, 5]`. -/
theorem c2_accuracy_coverage_formulas (draft : List Char) (criteria : Criteria)
    (fact_checks : List FactCheckResult) :
    (score_report draft criteria fact_checks).accuracy =
      (((fact_checks.filter (fun fc => fc.verdict = chars "supported")).length : Rat)
        / ((max 1 fact_checks.length : Nat) : Rat)) * 5 ∧
    (score_report draft criteria fact_checks).coverage =
      (((criteria.must_include.filter
          (fun item => containsSub (toLowerL item) (toLowerL draft))).length : Rat)
        / ((max 1 criteria.must_include.length : Nat) : Rat)) * 5 ∧
    0 ≤ (score_report draft criteria fact_checks).accuracy ∧
    (score_report draft criteria fact_checks).accuracy ≤ 5 ∧
    0 ≤ (score_report draft criteria fact_checks).coverage ∧
    (score_report draft criteria fact_checks).coverage ≤ 5 := by
  have hacc : (score_report draft criteria fact_checks).accuracy =
      (((fact_checks.filter (fun fc => fc.verdict = chars "supported")).length : Rat)
        / ((max 1 fact_checks.length : Nat) : Rat)) * 5 := by
    simp only [score_report, calculate_overall, ite_isEmpty_eq_max]
  have hcov : (score_report draft criteria fact_checks).coverage =
      (((criteria.must_include.filter
          (fun item => containsSub (toLowerL item) (toLowerL draft))).length : Rat)
        / ((max 1 criteria.must_include.length : Nat) : Rat)) * 5 := by
    simp only [score_report, calculate_overall, ite_isEmpty_eq_max]
  refine ⟨hacc, hcov, ?_, ?_, ?_, ?_⟩
  · rw [hacc]
    exact (ratio_score_bounds _ _ (List.length_filter_le _ _)).1
  · rw [hacc]
    exact (ratio_score_bounds _ _ (List.length_filter_le _ _)).2
  · rw [hcov]
    exact (ratio_score_bounds _ _ (List.length_filter_le _ _)).1
  · rw [hcov]
    exact (ratio_score_bounds _ _ (List.length_filter_le _ _)).2

/-- C6: `clarity_structure` is 3.0, plus 1.0 when the draft length is strictly
between 500 and 5000, plus 1.0 when the draft has more than three heading
markers, clamped at 5.0; it always lies in `[3, 5]`; a 200-character draft with
no headings scores 3.0 and a 1000-character draft with four headings 5.0. -/
theorem c6_clarity_structure_formula (draft : List Char) (criteria : Criteria)
    (fact_checks : List FactCheckResult) :
    ((score_report draft criteria fact_checks).clarity_structure =
        min ((3 + (if 500 < draft.length ∧ draft.length < 5000 then 1 else 0))
          + (if 3 < draft.count '#' then 1 else 0)) 5 ∧
      3 ≤ (score_report draft criteria fact_checks).clarity_structure ∧
      (score_report draft criteria fact_checks).clarity_structure ≤ 5) ∧
    (score_report (List.replicate 200 'a') ⟨[], [], [], [], []⟩ []).clarity_structure = 3 ∧
    (score_report (List.replicate 996 'a' ++ List.replicate 4 '#')
        ⟨[], [], [], [], []⟩ []).clarity_structure = 5 := by
  have heq : (score_report draft criteria fact_checks).clarity_structure =
      min ((3 + (if 500 < draft.length ∧ draft.length < 5000 then 1 else 0))
        + (if 3 < draft.count '#' then 1 else 0)) 5 := rfl
  refine ⟨⟨heq, ?_, ?_⟩, ?_, ?_⟩
  · rw [heq]
    refine le_min ?_ (by norm_num)
    split <;> split <;> norm_num
  · rw [heq]
    exact min_le_right _ _
  · have hch : ¬('a' = '#') := by decide
    simp only [score_report, calculate_overall]
    norm_num [List.count_replicate, hch, min_def]
  · have hch : ¬('a' = '#') := by decide
    simp only [score_report, calculate_overall]
    norm_num [List.count_append, List.count_replicate, hch, min_def]

/-! ## Lowercasing preserves word structure (bridge for C5 / C10) -/

/-- Valid code points below the surrogate range round-trip through
`Char.ofNat`. -/
theorem toNat_ofNat_valid {n : Nat} (h : n < 55296) : (Char.ofNat n).toNat = n := by
  unfold Char.ofNat
  rw [dif_pos (Or.inl h : n.isValidChar)]
  rfl

/-- Lowercasing a character does not change whether it is whitespace. -/
theorem isWhitespace_toLower (c : Char) :
    (Char.toLower c).isWhitespace = c.isWhitespace := by
  simp only [Char.toLower]
  split
  · rename_i h
    have hofn : (Char.ofNat (c.toNat + 32)).toNat = c.toNat + 32 :=
      toNat_ofNat_valid (by omega)
    have hne : ∀ w : Char, w.toNat ≠ c.toNat + 32 → Char.ofNat (c.toNat + 32) ≠ w := by
      intro w hw e
      exact hw (by rw [← e, hofn])
    have hnc : ∀ w : Char, w.toNat ≠ c.toNat → c ≠ w := by
      intro w hw e
      exact hw (by rw [e])
    have e1 := hne ' ' (by rw [show (' ' : Char).toNat = 32 from rfl]; omega)
    have e2 := hne '\t' (by rw [show ('\t' : Char).toNat = 9 from rfl]; omega)
    have e3 := hne '\r' (by rw [show ('\r' : Char).toNat = 13 from rfl]; omega)
    have e4 := hne '\n' (by rw [show ('\n' : Char).toNat = 10 from rfl]; omega)
    have f1 := hnc ' ' (by rw [show (' ' : Char).toNat = 32 from rfl]; omega)
    have f2 := hnc '\t' (by rw [show ('\t' : Char).toNat = 9 from rfl]; omega)
    have f3 := hnc '\r' (by rw [show ('\r' : Char).toNat = 13 from rfl]; omega)
    have f4 := hnc '\n' (by rw [show ('\n' : Char).toNat = 10 from rfl]; omega)
    simp [Char.isWhitespace, e1, e2, e3, e4, f1, f2, f3, f4]
  · rfl

/-- Mapping a function over a list preserves emptiness. -/
theorem isEmpty_map_eq (f : Char → Char) (l : List Char) :
    (l.map f).isEmpty = l.isEmpty := by
  cases l <;> rfl

/-- Accumulator-generalised form: word splitting commutes with lowercasing. -/
theorem splitWsAux_map_toLower (s : List Char) :
    ∀ cur : List Char, splitWsAux (s.map Char.toLower) (cur.map Char.toLower)
      = (splitWsAux s cur).map toLowerL := by
  induction s with
  | nil =>
    intro cur
    simp only [List.map_nil, splitWsAux, isEmpty_map_eq]
    by_cases hc : cur.isEmpty
    · rw [if_pos hc, if_pos hc]
      rfl
    · rw [if_neg hc, if_neg hc]
      simp [toLowerL, List.map_reverse]
  | cons c rest ih =>
    intro cur
    simp only [List.map_cons, splitWsAux, isWhitespace_toLower, isEmpty_map_eq]
    by_cases hw : c.isWhitespace
    · rw [if_pos hw, if_pos hw]
      by_cases hc : cur.isEmpty
      · rw [if_pos hc, if_pos hc]
        simpa using ih []
      · rw [if_neg hc, if_neg hc]
        rw [List.map_cons]
        refine congrArg₂ _ ?_ (by simpa using ih [])
        simp [toLowerL, List.map_reverse]
    · rw [if_neg hw, if_neg hw]
      exact ih (c :: cur)

/-- Word splitting commutes with lowercasing, so the lowered text has exactly
one word per word of the original text. -/
theorem splitWs_toLowerL (s : List Char) :
    splitWs (toLowerL s) = (splitWs s).map toLowerL := by
  simpa [splitWs, toLowerL] using splitWsAux_map_toLower s []

/-- With a nonempty claim word set, the `_fact_check_basic` loop completes and
returns a match count. -/
theorem overlapMatches_total (cw : List (List Char)) (hcw : ¬ cw.length = 0) :
    ∀ sources : List SearchResult, ∃ m, overlapMatches cw sources = some m
  | [] => ⟨0, rfl⟩
  | s :: rest => by
    obtain ⟨m, hm⟩ := overlapMatches_total cw hcw rest
    exact ⟨overlapBit cw s + m,
      by simp only [overlapMatches, if_neg hcw, hm, Option.map_some']⟩

/-- Nonempty word list of the claim text gives a nonempty deduplicated word
set for the lowered text (the divisor of the overlap ratio). -/
theorem claim_words_ne_zero {t : List Char} (h : splitWs t ≠ []) :
    ¬ ((splitWs (toLowerL t)).dedup).length = 0 := by
  intro hz
  have hnil : (splitWs (toLowerL t)).dedup = [] := List.length_eq_zero.mp hz
  have : splitWs (toLowerL t) = [] := (List.dedup_eq_nil _).mp hnil
  rw [splitWs_toLowerL] at this
  exact h (List.map_eq_nil_iff.mp this)

/-- C10: when the claim text contains at least one whitespace-separated word,
the heuristic fallback fact-checker is total — the overlap divisor (the number
of distinct lowercased claim words) is nonzero and a result is always
produced; the precondition is needed, as a wordless claim with a nonempty
source list makes the division raise (modelled as `none`). -/
theorem c10_fallback_totality :
    (∀ (claim : Claim) (sources : List SearchResult),
        splitWs claim.claim_text ≠ [] →
        ¬ ((splitWs (toLowerL claim.claim_text)).dedup).length = 0 ∧
        (fact_check_basic claim sources).isSome = true) ∧
    fact_check_basic ⟨chars "", chars "e", chars "medium"⟩
        [⟨chars "t", chars "u", chars "s"⟩] = none := by
  constructor
  · intro claim sources h
    have hz := claim_words_ne_zero h
    refine ⟨hz, ?_⟩
    obtain ⟨m, hm⟩ := overlapMatches_total _ hz sources
    simp only [fact_check_basic, hm, Option.map_some', Option.isSome_some]
  · rfl

/-- C10 witness: a two-word claim with no sources satisfies the hypothesis and
yields a nonzero divisor and a defined result. -/
theorem c10_fallback_totality_witness :
    ¬ ((splitWs (toLowerL (Claim.mk (chars "hello world") (chars "e")
        (chars "medium")).claim_text)).dedup).length = 0 ∧
    (fact_check_basic (Claim.mk (chars "hello world") (chars "e") (chars "medium"))
        []).isSome = true :=
  c10_fallback_totality.1 (Claim.mk (chars "hello world") (chars "e") (chars "medium"))
    [] (by decide)

/-- C5: under the same nonempty-word precondition, the heuristic fallback
returns supported at confidence 0.7 for two or more matching sources,
insufficient at 0.5 for exactly one, insufficient at 0.3 for none, and never
returns the contradicted verdict. -/
theorem c5_heuristic_verdict_policy (claim : Claim) (sources : List SearchResult)
    (h : splitWs claim.claim_text ≠ []) :
    ∃ r, fact_check_basic claim sources = some r ∧
      r.verdict ≠ chars "contradicted" ∧
      (2 ≤ matchCountD claim sources →
        r.verdict = chars "supported" ∧ r.confidence = 7/10) ∧
      (matchCountD claim sources = 1 →
        r.verdict = chars "insufficient" ∧ r.confidence = 5/10) ∧
      (matchCountD claim sources = 0 →
        r.verdict = chars "insufficient" ∧ r.confidence = 3/10) := by
  have hz := claim_words_ne_zero h
  obtain ⟨m, hm⟩ := overlapMatches_total _ hz sources
  have hmc : matchCountD claim sources = m := by
    unfold matchCountD
    rw [hm]
    rfl
  rw [hmc]
  by_cases h2 : 2 ≤ m
  · refine ⟨⟨claim.claim_text, chars "supported", 7/10,
        chars "Found " ++ natChars m ++ chars " sources with matching content", sources⟩,
      by simp only [fact_check_basic, hm, Option.map_some', if_pos h2],
      by show chars "supported" ≠ chars "contradicted"; decide,
      fun _ => ⟨rfl, rfl⟩, fun h1 => by omega, fun h0 => by omega⟩
  · by_cases h1 : m = 1
    · refine ⟨⟨claim.claim_text, chars "insufficient", 5/10,
          chars "Limited evidence found", sources⟩,
        by simp only [fact_check_basic, hm, Option.map_some', if_neg h2, if_pos h1],
        by show chars "insufficient" ≠ chars "contradicted"; decide,
        fun hge => by omega, fun _ => ⟨rfl, rfl⟩, fun h0 => by omega⟩
    · refine ⟨⟨claim.claim_text, chars "insufficient", 3/10,
          chars "No clear supporting evidence found", sources⟩,
        by simp only [fact_check_basic, hm, Option.map_some', if_neg h2, if_neg h1],
        by show chars "insufficient" ≠ chars "contradicted"; decide,
        fun hge => by omega, fun he => by omega, fun _ => ⟨rfl, rfl⟩⟩

/-- C5 witness: a concrete claim with two heavily overlapping sources is
marked supported with confidence 0.7. -/
theorem c5_heuristic_verdict_policy_witness :
    ∃ r, fact_check_basic (Claim.mk (chars "lean is nice") (chars "e") (chars "medium"))
        [SearchResult.mk (chars "t1") (chars "u1") (chars "lean is nice"),
         SearchResult.mk (chars "t2") (chars "u2") (chars "lean is nice")] = some r ∧
      r.verdict ≠ chars "contradicted" ∧
      (2 ≤ matchCountD (Claim.mk (chars "lean is nice") (chars "e") (chars "medium"))
          [SearchResult.mk (chars "t1") (chars "u1") (chars "lean is nice"),
           SearchResult.mk (chars "t2") (chars "u2") (chars "lean is nice")] →
        r.verdict = chars "supported" ∧ r.confidence = 7/10) ∧
      (matchCountD (Claim.mk (chars "lean is nice") (chars "e") (chars "medium"))
          [SearchResult.mk (chars "t1") (chars "u1") (chars "lean is nice"),
           SearchResult.mk (chars "t2") (chars "u2") (chars "lean is nice")] = 1 →
        r.verdict = chars "insufficient" ∧ r.confidence = 5/10) ∧
      (matchCountD (Claim.mk (chars "lean is nice") (chars "e") (chars "medium"))
          [SearchResult.mk (chars "t1") (chars "u1") (chars "lean is nice"),
           SearchResult.mk (chars "t2") (chars "u2") (chars "lean is nice")] = 0 →
        r.verdict = chars "insufficient" ∧ r.confidence = 3/10) :=
  c5_heuristic_verdict_policy
    (Claim.mk (chars "lean is nice") (chars "e") (chars "medium"))
    [SearchResult.mk (chars "t1") (chars "u1") (chars "lean is nice"),
     SearchResult.mk (chars "t2") (chars "u2") (chars "lean is nice")]
    (by decide)

/-- C3 counterexample: on the AI path, `fact_check_claim` uses the parsed
confidence without clamping, so a response carrying confidence 2.0 yields a
FactCheckResult whose confidence is outside `[0, 1]`. -/
theorem c3_ai_confidence_unclamped :
    fact_check_claim (some (chars "k"))
        (some (ParsedVerdict.mk (some (chars "supported")) (some 2) (some (chars "ok"))))
        (Claim.mk (chars "x") (chars "e") (chars "medium")) []
      = some (FactCheckResult.mk (chars "x") (chars "supported") 2 (chars "ok") []) ∧
    ¬ ((2 : Rat) ≤ 1) := by
  exact ⟨rfl, by norm_num⟩

/-- C3 (amended): every FactCheckResult produced by the heuristic fallback
path has confidence in `[0, 1]`, while the AI path passes the parsed
confidence (default 0.5) through unclamped, so its confidence lies in `[0, 1]`
exactly when the parsed value does. -/
theorem c3_confidence_ranges (claim : Claim) (sources : List SearchResult)
    (r : FactCheckResult) :
    (fact_check_basic claim sources = some r →
      0 ≤ r.confidence ∧ r.confidence ≤ 1) ∧
    (∀ (ct : List Char) (resp : ParsedVerdict),
      (fact_check_ai ct resp sources).confidence = resp.confidence.getD (5/10)) := by
  constructor
  · intro hr
    unfold fact_check_basic at hr
    cases hom : overlapMatches ((splitWs (toLowerL claim.claim_text)).dedup) sources with
    | none =>
      rw [hom] at hr
      cases hr
    | some m =>
      rw [hom, Option.map_some'] at hr
      rw [← Option.some.inj hr]
      by_cases h2 : 2 ≤ m
      · rw [if_pos h2]
        norm_num
      · rw [if_neg h2]
        by_cases h1 : m = 1
        · rw [if_pos h1]
          norm_num
        · rw [if_neg h1]
          norm_num
  · intro ct resp
    rfl

/-- C3 amended witness: a concrete fallback result (no sources, zero matches)
has confidence 0.3, which lies in `[0, 1]`. -/
theorem c3_confidence_ranges_witness :
    0 ≤ (FactCheckResult.mk (chars "hi") (chars "insufficient") (3/10)
        (chars "No clear supporting evidence found") []).confidence ∧
    (FactCheckResult.mk (chars "hi") (chars "insufficient") (3/10)
        (chars "No clear supporting evidence found") []).confidence ≤ 1 :=
  (c3_confidence_ranges (Claim.mk (chars "hi") (chars "e") (chars "medium")) []
    (FactCheckResult.mk (chars "hi") (chars "insufficient") (3/10)
      (chars "No clear supporting evidence found") [])).1 rfl

/-- C4 counterexample: on the AI path, `extract_claims` returns the parsed
claim array unchanged, so a response of eleven claims yields eleven claims,
exceeding the claimed bound of ten. -/
theorem c4_ai_path_exceeds_ten :
    (extract_claims (some (chars "k"))
        (some (List.replicate 11 (Claim.mk (chars "c") (chars "e") (chars "medium"))))
        (chars "")).length = 11 ∧ ¬ (11 ≤ 10) := by
  exact ⟨rfl, by omega⟩

/-- C4 (amended): the fallback path of `extract_claims` returns at most ten
claims; the AI path returns the parsed claim list unchanged and applies no
cap; with no API key `extract_claims` is the fallback. -/
theorem c4_claim_count_bounds :
    (∀ draft : List Char, (extract_claims_basic draft).length ≤ 10) ∧
    (∀ (k draft : List Char) (resp : List Claim),
        extract_claims (some k) (some resp) draft = resp) ∧
    (∀ (draft : List Char) (resp : Option (List Claim)),
        extract_claims none resp draft = extract_claims_basic draft) := by
  refine ⟨fun draft => ?_, fun k draft resp => rfl, fun draft resp => rfl⟩
  unfold extract_claims_basic
  exact List.length_take_le 10 _

/-- C8: every claim produced by the fallback extractor belongs to a list of at
most ten claims, and has stripped text longer than 20 characters, priority
`medium`, and evidence_needed `Web search verification`. -/
theorem c8_fallback_claim_shape (draft : List Char) (c : Claim)
    (hc : c ∈ extract_claims_basic draft) :
    (extract_claims_basic draft).length ≤ 10 ∧
    20 < c.claim_text.length ∧
    c.priority = chars "medium" ∧
    c.evidence_needed = chars "Web search verification" := by
  refine ⟨by unfold extract_claims_basic; exact List.length_take_le 10 _, ?_⟩
  unfold extract_claims_basic at hc
  have h1 := List.mem_of_mem_take hc
  obtain ⟨s, hs, hcs⟩ := List.mem_map.mp h1
  have hlen : 20 < s.length := of_decide_eq_true (List.mem_filter.mp hs).2
  cases hcs
  exact ⟨hlen, rfl, rfl⟩

/-- C8 witness: a one-sentence draft yields a claim with the required shape. -/
theorem c8_fallback_claim_shape_witness :
    (extract_claims_basic (chars "This database stores a very large amount of data")).length ≤ 10 ∧
    20 < (Claim.mk (chars "This database stores a very large amount of data")
        (chars "Web search verification") (chars "medium")).claim_text.length ∧
    (Claim.mk (chars "This database stores a very large amount of data")
        (chars "Web search verification") (chars "medium")).priority = chars "medium" ∧
    (Claim.mk (chars "This database stores a very large amount of data")
        (chars "Web search verification") (chars "medium")).evidence_needed
      = chars "Web search verification" :=
  c8_fallback_claim_shape (chars "This database stores a very large amount of data")
    (Claim.mk (chars "This database stores a very large amount of data")
      (chars "Web search verification") (chars "medium")) (by decide)

/-- C9: with no API key configured, `extract_criteria` takes the fallback
path, and for the query "Compare the best databases" the resulting goals are
exactly the comparison goal and the best-options goal. -/
theorem c9_compare_best_goals (ai_resp : Option Criteria) :
    (extract_criteria none ai_resp (chars "Compare the best databases")).goals =
      [chars "Provide comprehensive comparison",
       chars "Identify best options with justification"] := by
  show (extract_criteria_basic (chars "Compare the best databases")).goals =
    [chars "Provide comprehensive comparison",
     chars "Identify best options with justification"]
  decide

/-- C7: the auto-fix (revision) step of `generate_report` runs exactly when
the overall score is strictly below 3.5; at or above the threshold the draft
passes through unchanged and the JSON report records `auto_fixed = false` and
a null `fixed_draft_length`. -/
theorem c7_revision_gate (draft : List Char) (overall : Rat)
    (auto_fix : List Char → List Char) :
    (overall < 7/2 → pipeline_fixed_draft draft overall auto_fix = auto_fix draft) ∧
    (7/2 ≤ overall →
      pipeline_fixed_draft draft overall auto_fix = draft ∧
      (json_report_bits draft (pipeline_fixed_draft draft overall auto_fix)
        overall).auto_fixed = false ∧
      (json_report_bits draft (pipeline_fixed_draft draft overall auto_fix)
        overall).fixed_draft_length = none) := by
  constructor
  · intro h
    unfold pipeline_fixed_draft
    rw [if_pos h]
  · intro h
    have hn : ¬ overall < 7/2 := not_lt.mpr h
    have hd : pipeline_fixed_draft draft overall auto_fix = draft := by
      unfold pipeline_fixed_draft
      rw [if_neg hn]
    refine ⟨hd, ?_, ?_⟩
    · show decide (overall < 7/2) = false
      exact decide_eq_false hn
    · show (if pipeline_fixed_draft draft overall auto_fix = draft
          then (none : Option Nat)
          else some (pipeline_fixed_draft draft overall auto_fix).length) = none
      rw [if_pos hd]

/-- C7 witness: at overall score 4.0 the draft is unchanged, `auto_fixed` is
false and `fixed_draft_length` is null. -/
theorem c7_revision_gate_witness :
    pipeline_fixed_draft (chars "d") 4 (fun d => d ++ chars "!") = chars "d" ∧
    (json_report_bits (chars "d")
      (pipeline_fixed_draft (chars "d") 4 (fun d => d ++ chars "!")) 4).auto_fixed = false ∧
    (json_report_bits (chars "d")
      (pipeline_fixed_draft (chars "d") 4 (fun d => d ++ chars "!")) 4).fixed_draft_length
      = none :=
  (c7_revision_gate (chars "d") 4 (fun d => d ++ chars "!")).2 (by norm_num)

end ReportEval
